import Mathlib

/-!
Verification development for the Chat_App end-to-end encrypted messaging
client (src/client.py, src/utils.py).

The cryptographic primitives used by the client (X25519, Ed25519,
HKDF-SHA256, ChaCha20-Poly1305, UTF-8 codecs) live in external libraries,
not in the repository, so they are modelled symbolically and executably:

* X25519 is modelled as modular exponentiation over a fixed small modulus
  (public key is g ^ sk mod m, exchange is pk ^ sk mod m), which has the
  commutation property that the real exchange has.
* Ed25519 is modelled with public key equal to the private scalar and a
  signature that records the signer public key and the signed message;
  verification checks both fields, so a signature verifies exactly over
  the message it was produced for, under the matching public key.
* HKDF is modelled as an injective ideal KDF: the derived key records the
  shared secret and the info string.
* ChaCha20-Poly1305 is modelled as ideal AEAD: a ciphertext records key,
  nonce and plaintext; decryption succeeds exactly when key and nonce
  match, returning the recorded plaintext.
* Byte strings in plaintext position are modelled as either the UTF-8
  encoding of a Lean string or an opaque non-UTF-8 blob; decoding fails
  on the latter, as bytes.decode does in the source.

The client itself (handshake handlers, ciphertext handler, send path,
identity store) is translated from src/client.py into pure state-passing
functions: each source method becomes a function from the client state
and the decoded inbound payload (plus the random values the source draws
from the OS, passed explicitly) to the new state together with the list
of relayed messages and the list of events pushed to the on_message sink.
-/

namespace ChatApp

/-! ## Symbolic model of the external cryptographic primitives -/

/-- Modulus of the modular-exponentiation model of X25519. -/
def xMod : Nat := 251

/-- Generator of the modular-exponentiation model of X25519. -/
def xGen : Nat := 7

/-- Model of deriving an X25519 public key from a private scalar
(`X25519PrivateKey.public_key().public_bytes(...)` in the source). -/
def xPub (sk : Nat) : Nat := xGen ^ sk % xMod

/-- Model of the X25519 Diffie-Hellman exchange
(`priv.exchange(peer_public)` in the source). -/
def xExchange (sk : Nat) (pk : Nat) : Nat := pk ^ sk % xMod

/-- Model of deriving the Ed25519 public key from the private key; secrecy
is not modelled, so the public key is the private scalar itself. -/
def edPub (sk : Nat) : Nat := sk

/-- Symbolic Ed25519 signature: records the public key of the signer and
the signed message (here the raw ephemeral public key, as a number). -/
structure Sig where
  signer : Nat
  msg : Nat
deriving DecidableEq

/-- Model of `identity_priv.sign(message)`. -/
def edSign (sk : Nat) (m : Nat) : Sig := ⟨edPub sk, m⟩

/-- Model of `Ed25519PublicKey.verify(sig, message)`: true exactly when
the signature was produced over `m` by the holder of `pk`. -/
def edVerify (pk : Nat) (m : Nat) (s : Sig) : Bool :=
  s.signer == pk && s.msg == m

/-- Symmetric session key produced by the HKDF model: records the shared
secret and the domain-separating info string (ideal injective KDF). -/
structure SymKey where
  secret : Nat
  info : String
deriving DecidableEq

/-- Model of `derive_shared_key(shared, info)` from src/client.py line 49:
HKDF-SHA256 with empty salt over the shared secret and info context. -/
def derive_shared_key (shared : Nat) (info : String) : SymKey :=
  ⟨shared, info⟩

/-- Byte string in plaintext position: either the UTF-8 encoding of a
string, or an opaque blob that is not valid UTF-8. -/
inductive PBytes where
  | utf8 (s : String)
  | invalid (blob : Nat)
deriving DecidableEq

/-- Model of `plaintext.encode()`. -/
def strEncode (s : String) : PBytes := PBytes.utf8 s

/-- Model of `pt.decode()`: fails (raises, in the source) on bytes that
are not valid UTF-8. -/
def pbDecode : PBytes → Option String
  | PBytes.utf8 s => some s
  | PBytes.invalid _ => none

/-- Ideal AEAD ciphertext: records key, nonce and plaintext. -/
structure Ct where
  key : SymKey
  nonce : Nat
  pt : PBytes
deriving DecidableEq

/-- Model of `ChaCha20Poly1305(key).encrypt(nonce, pt, None)`. -/
def aeadEncrypt (k : SymKey) (n : Nat) (p : PBytes) : Ct := ⟨k, n, p⟩

/-- Model of `ChaCha20Poly1305(key).decrypt(nonce, ct, None)`: succeeds
exactly when the ciphertext was produced under the same key and nonce;
otherwise authentication fails (the source raises InvalidTag). -/
def aeadDecrypt (k : SymKey) (n : Nat) (c : Ct) : Option PBytes :=
  if c.key = k ∧ c.nonce = n then some c.pt else none

/-! ## Python string ordering

`sorted([a, b])` on Python strings compares lexicographically by Unicode
code point; `charsLe` implements that comparison on the character lists
of Lean strings. -/

/-- Lexicographic code-point comparison of character lists, as Python
string comparison does. -/
def charsLe : List Char → List Char → Bool
  | [], _ => true
  | _ :: _, [] => false
  | c :: cs, d :: ds =>
    if c.toNat < d.toNat then true
    else if d.toNat < c.toNat then false
    else charsLe cs ds

/-- Python string less-or-equal. -/
def strLe (a b : String) : Bool := charsLe a.data b.data

/-- Model of Python `sorted([a, b])` (stable two-element sort). -/
def pySorted2 (a b : String) : List String :=
  if strLe a b then [a, b] else [b, a]

/-- The HKDF info string computed by the responder path, src/client.py
line 260: `f"session:{'|'.join(sorted([self.username, sender]))}"`. -/
def pairInfoResponder (me sender : String) : String :=
  "session:" ++ String.intercalate "|" (pySorted2 me sender)

/-- The HKDF info string computed by the initiator path, src/client.py
line 314 (textually the same expression as the responder path). -/
def pairInfoInitiator (me sender : String) : String :=
  "session:" ++ String.intercalate "|" (pySorted2 me sender)

/-! ## Wire payloads and client state -/

/-- Decoded fields shared by the `handshake_init` and `handshake`
payloads: identity public key, ephemeral public key, and the signature
over the ephemeral public key. -/
structure HSPayload where
  identity : Nat
  ephemeral : Nat
  sig : Sig
deriving DecidableEq

/-- Inner relay payloads produced by the client. -/
inductive Payload where
  | handshakeInit (p : HSPayload)
  | handshake (p : HSPayload)
  | ciphertext (nonce : Nat) (ct : Ct)
deriving DecidableEq

/-- Events pushed to the embedder through the `on_message` sink. -/
inductive Event where
  | handshakeSuccess (peer : String)
  | message (fromUser : String) (text : String)
deriving DecidableEq

/-- State of one ChatClient instance: username, long-term identity
private key, the `sessions` dict (peer name to symmetric key, as an
association list with Python dict update semantics), and the single
client-wide `my_eph_priv` field. -/
structure ClientState where
  username : String
  identity_priv : Nat
  sessions : List (String × SymKey)
  my_eph_priv : Option Nat
deriving DecidableEq

/-- Python dict assignment `sessions[peer] = key`: replace in place if
the key is present, else append. -/
def setSession (l : List (String × SymKey)) (peer : String) (v : SymKey) :
    List (String × SymKey) :=
  match l with
  | [] => [(peer, v)]
  | (k, w) :: t =>
    if k = peer then (peer, v) :: t else (k, w) :: setSession t peer v

/-- Python dict read `sessions.get(peer)`. -/
def getSession : List (String × SymKey) → String → Option SymKey
  | [], _ => none
  | (k, v) :: t, peer => if k = peer then some v else getSession t peer

/-- Relayed messages and sink events produced by one handler run. -/
structure HandlerOut where
  sent : List (String × Payload)
  events : List Event
deriving DecidableEq

/-- The empty handler output: nothing relayed, no sink event. -/
def noOut : HandlerOut := ⟨[], []⟩

/-! ## The handshake engine, from src/client.py -/

/-- `initiate_handshake(peer)` (src/client.py lines 160-189): generate a
fresh ephemeral (passed in as `eph`), store it in the client-wide
`my_eph_priv`, sign its public half, and relay a `handshake_init`. -/
def initiate_handshake (st : ClientState) (peer : String) (eph : Nat) :
    ClientState × HandlerOut :=
  let epk := xPub eph
  let sg := edSign st.identity_priv epk
  ( { st with my_eph_priv := some eph },
    ⟨[(peer, Payload.handshakeInit ⟨edPub st.identity_priv, epk, sg⟩)], []⟩ )

/-- `_handle_handshake_init(sender, payload)` (src/client.py lines
206-273), on an already field-decoded payload: verify the signature over
the transmitted ephemeral under the transmitted identity key; on failure
return with no change. Otherwise generate a local ephemeral (passed in
as `eph`, bound to a local variable in the source, so `my_eph_priv` is
not touched), sign and relay the `handshake` reply, compute the shared
secret, derive the session key and install it, and emit
`handshake_success` to the sink. -/
def handle_handshake_init (st : ClientState) (sender : String)
    (p : HSPayload) (eph : Nat) : ClientState × HandlerOut :=
  if edVerify p.identity p.ephemeral p.sig then
    let epk := xPub eph
    let sg := edSign st.identity_priv epk
    let reply := Payload.handshake ⟨edPub st.identity_priv, epk, sg⟩
    let shared := xExchange eph p.ephemeral
    let key := derive_shared_key shared (pairInfoResponder st.username sender)
    ( { st with sessions := setSession st.sessions sender key },
      ⟨[(sender, reply)], [Event.handshakeSuccess sender]⟩ )
  else (st, noOut)

/-- `_handle_handshake(sender, payload)` (src/client.py lines 276-334),
on an already field-decoded payload: verify the signature; on failure
return with no change. Then, if the client-wide `my_eph_priv` is None,
warn and return with no change. Otherwise compute the shared secret with
the stored ephemeral, derive and install the session key, clear
`my_eph_priv`, and emit `handshake_success`. -/
def handle_handshake (st : ClientState) (sender : String) (p : HSPayload) :
    ClientState × HandlerOut :=
  if edVerify p.identity p.ephemeral p.sig then
    match st.my_eph_priv with
    | none => (st, noOut)
    | some esk =>
      let shared := xExchange esk p.ephemeral
      let key := derive_shared_key shared (pairInfoInitiator st.username sender)
      ( { st with
            sessions := setSession st.sessions sender key,
            my_eph_priv := none },
        ⟨[], [Event.handshakeSuccess sender]⟩ )
  else (st, noOut)

/-! ## The message channel, from src/client.py -/

/-- Which branch `send_message` took: the guarded early return when no
session key exists for the peer (the source warns the caller and sends
nothing), or a successful send. -/
inductive SendResult where
  | noSession
  | sent
deriving DecidableEq

/-- One line appended to messages.log by `send_message` (src/client.py
lines 392-402): sender, recipient, nonce and ciphertext; no plaintext. -/
structure LogEntry where
  fromUser : String
  toUser : String
  nonce : Nat
  entry : Ct
deriving DecidableEq

/-- Outcome of `send_message`: the branch taken, the relayed messages,
and the messages.log records appended. -/
structure SendOut where
  result : SendResult
  sent : List (String × Payload)
  log : List LogEntry
deriving DecidableEq

/-- `send_message(peer, plaintext)` (src/client.py lines 373-406): if no
session key is stored for `peer`, warn and return with nothing sent and
nothing logged; otherwise encrypt the UTF-8 encoding of the plaintext
under a fresh random nonce (passed in as `nonce`), append the encrypted
log record, and relay the ciphertext payload. -/
def send_message (st : ClientState) (peer : String) (plaintext : String)
    (nonce : Nat) : ClientState × SendOut :=
  match getSession st.sessions peer with
  | none => (st, ⟨SendResult.noSession, [], []⟩)
  | some key =>
    let ct := aeadEncrypt key nonce (strEncode plaintext)
    ( st,
      ⟨SendResult.sent, [(peer, Payload.ciphertext nonce ct)],
        [⟨st.username, peer, nonce, ct⟩]⟩ )

/-- `_handle_ciphertext(sender, payload)` (src/client.py lines 337-370),
on already base64-decoded fields: if no session key is stored for the
sender, warn and return. Otherwise AEAD-decrypt; both an authentication
failure and a UTF-8 decode failure land in the same except branch, which
drops the payload with no sink event and no reply. On success, emit the
decoded message to the sink. -/
def handle_ciphertext (st : ClientState) (sender : String) (nonce : Nat)
    (ct : Ct) : ClientState × HandlerOut :=
  match getSession st.sessions sender with
  | none => (st, noOut)
  | some key =>
    match aeadDecrypt key nonce ct with
    | none => (st, noOut)
    | some pt =>
      match pbDecode pt with
      | none => (st, noOut)
      | some text => (st, ⟨[], [Event.message sender text]⟩)

/-! ## The identity store, from src/client.py -/

/-- Contents of the identity key file: either a PKCS#8 PEM encoding of an
Ed25519 private key, or a PEM of some other key type. -/
inductive PemFile where
  | ed25519Pkcs8 (sk : Nat)
  | otherKey (blob : Nat)
deriving DecidableEq

/-- `load_or_create_identity(path)` (src/client.py lines 36-47), with the
file system at `path` passed in as `file` and the freshly generated key
as `fresh`: if the file exists, parse it and reject non-Ed25519 keys;
otherwise generate, save as unencrypted PKCS#8 PEM, and return. The
result carries the returned key and the file contents afterwards. -/
def load_or_create_identity (file : Option PemFile) (fresh : Nat) :
    Except String (Nat × Option PemFile) :=
  match file with
  | some (PemFile.ed25519Pkcs8 sk) =>
    Except.ok (sk, some (PemFile.ed25519Pkcs8 sk))
  | some (PemFile.otherKey _) => Except.error "Identity key is not Ed25519"
  | none => Except.ok (fresh, some (PemFile.ed25519Pkcs8 fresh))

/-! ## Spec-side definition for the HKDF info refinement claim -/

/-- The HKDF info string as the spec words it: `"session:"` followed by
the two names sorted and joined with `"|"`. Written from the spec, to be
compared with the definitions taken from the source. -/
def specSessionInfo (a b : String) : String :=
  "session:" ++
    String.intercalate "|" (List.insertionSort (fun x y => strLe x y) [a, b])

/-! ## Concrete traces used to settle claims on explicit inputs -/

/-- Interleaved-initiation trace, step 1: client A (identity key 1, no
sessions) initiates toward B with ephemeral scalar 2. -/
def cexA1 : ClientState := (initiate_handshake ⟨"A", 1, [], none⟩ "B" 2).1

/-- Interleaved-initiation trace, step 2: before the reply of B arrives,
A also initiates toward C with ephemeral scalar 3, which overwrites the
single client-wide stored ephemeral. -/
def cexA2 : ClientState := (initiate_handshake cexA1 "C" 3).1

/-- The handshake_init payload A relayed to B in step 1. -/
def cexInitP : HSPayload := ⟨edPub 1, xPub 2, edSign 1 (xPub 2)⟩

/-- Interleaved-initiation trace, step 3: client B (identity key 9, no
sessions) processes the init of A with responder ephemeral scalar 5. -/
def cexB1 : ClientState :=
  (handle_handshake_init ⟨"B", 9, [], none⟩ "A" cexInitP 5).1

/-- The handshake reply B relayed back to A in step 3. -/
def cexReplyP : HSPayload := ⟨edPub 9, xPub 5, edSign 9 (xPub 5)⟩

/-- Interleaved-initiation trace, step 4: A processes the reply of B. -/
def cexA3 : ClientState := (handle_handshake cexA2 "B" cexReplyP).1

/-- Pending-initiation trace for the populated-field invariant: A
initiates toward B with ephemeral scalar 2. -/
def cexC3a : ClientState := (initiate_handshake ⟨"A", 1, [], none⟩ "B" 2).1

/-- A valid handshake_init from B (identity key 9, ephemeral scalar 5),
as produced by a cross-start on the side of B. -/
def cexC3initP : HSPayload := ⟨edPub 9, xPub 5, edSign 9 (xPub 5)⟩

/-- A completes as responder with B while the initiation toward B is
still pending. -/
def cexC3b : ClientState := (handle_handshake_init cexC3a "B" cexC3initP 4).1

/-- Unsolicited-reply trace: A initiates toward C with ephemeral scalar
2, so the client-wide ephemeral is populated. -/
def cexC4a : ClientState := (initiate_handshake ⟨"A", 1, [], none⟩ "C" 2).1

/-- A signature-valid handshake reply from B, toward whom A never
initiated. -/
def cexC4replyP : HSPayload := ⟨edPub 9, xPub 5, edSign 9 (xPub 5)⟩

/-- A processes the unsolicited reply of B. -/
def cexC4b : ClientState := (handle_handshake cexC4a "B" cexC4replyP).1

/-! ## Helper lemmas -/

/-- Writing a key for a peer and reading the same peer yields that key. -/
theorem getSession_setSession_self (l : List (String × SymKey))
    (peer : String) (v : SymKey) :
    getSession (setSession l peer v) peer = some v := by
  induction l with
  | nil => simp [setSession, getSession]
  | cons hd tl ih =>
    obtain ⟨k, w⟩ := hd
    by_cases h : k = peer
    · simp [setSession, h, getSession]
    · simp [setSession, h, getSession, ih]

/-- The Diffie-Hellman exchange commutes: each side combines its own
private scalar with the public key of the other and obtains the same
shared secret. -/
theorem xExchange_comm (a b : Nat) :
    xExchange a (xPub b) = xExchange b (xPub a) := by
  unfold xExchange xPub
  rw [← Nat.pow_mod, ← Nat.pow_mod, ← pow_mul, ← pow_mul, Nat.mul_comm]

/-- A signature produced over a message verifies over that message under
the matching public key. -/
theorem edVerify_edSign (sk m : Nat) :
    edVerify (edPub sk) m (edSign sk m) = true := by
  simp [edVerify, edSign]

/-- The code-point comparison is total. -/
theorem charsLe_total (xs ys : List Char) :
    charsLe xs ys = true ∨ charsLe ys xs = true := by
  induction xs generalizing ys with
  | nil => left; rfl
  | cons c cs ih =>
    cases ys with
    | nil => right; rfl
    | cons d ds =>
      by_cases h1 : c.toNat < d.toNat
      · left; simp [charsLe, h1]
      · by_cases h2 : d.toNat < c.toNat
        · right; simp [charsLe, h2]
        · rcases ih ds with h | h
          · left; simp [charsLe, h1, h2, h]
          · right; simp [charsLe, h1, h2, h]

/-- The code-point comparison is antisymmetric. -/
theorem charsLe_antisymm (xs ys : List Char)
    (h1 : charsLe xs ys = true) (h2 : charsLe ys xs = true) : xs = ys := by
  induction xs generalizing ys with
  | nil =>
    cases ys with
    | nil => rfl
    | cons d ds => simp [charsLe] at h2
  | cons c cs ih =>
    cases ys with
    | nil => simp [charsLe] at h1
    | cons d ds =>
      by_cases hcd : c.toNat < d.toNat
      · have hdc : ¬ d.toNat < c.toNat := by omega
        simp [charsLe, hcd, hdc] at h2
      · by_cases hdc : d.toNat < c.toNat
        · simp [charsLe, hcd, hdc] at h1
        · have hn : c.toNat = d.toNat := by omega
          have hc : c = d := by
            apply Char.ext
            exact UInt32.ext hn
          subst hc
          simp [charsLe, hcd] at h1 h2
          rw [ih ds h1 h2]

/-- Sorting a two-element list is symmetric in its arguments. -/
theorem pySorted2_symm (a b : String) : pySorted2 a b = pySorted2 b a := by
  unfold pySorted2 strLe
  by_cases h1 : charsLe a.data b.data = true
  · by_cases h2 : charsLe b.data a.data = true
    · have hd : a.data = b.data := charsLe_antisymm _ _ h1 h2
      have hab : a = b := by
        cases a with
        | mk la =>
          cases b with
          | mk lb => simp_all
      subst hab
      rfl
    · simp [h1, h2]
  · have h2 : charsLe b.data a.data = true := by
      rcases charsLe_total a.data b.data with h | h
      · exact absurd h h1
      · exact h
    simp [h1, h2]

/-- The initiator-path info string for names in one order equals the
responder-path info string for the names swapped. -/
theorem pairInfo_swap (a b : String) :
    pairInfoInitiator a b = pairInfoResponder b a := by
  unfold pairInfoInitiator pairInfoResponder
  rw [pySorted2_symm]

/-! ## Claim theorems -/

/-- C1, counterexample: the claim as stated fails on the code. A
(identity 1) runs initiate_handshake toward B with ephemeral 2; before
the reply of B arrives, A also initiates toward C with ephemeral 3,
which overwrites the single client-wide my_eph_priv field. B (identity
9) processes the init of A and installs a key; A then processes the
reply of B in _handle_handshake, which succeeds (emits
handshake_success and installs a key for B), so both sides complete the
two-flight handshake with each other, yet the key A stores for B is
derived from ephemeral 3 while B derived from ephemeral 2: the stored
keys are not equal. -/
theorem c1_counterexample :
    (initiate_handshake ⟨"A", 1, [], none⟩ "B" 2).2.sent
      = [("B", Payload.handshakeInit cexInitP)] ∧
    (handle_handshake_init ⟨"B", 9, [], none⟩ "A" cexInitP 5).2.sent
      = [("A", Payload.handshake cexReplyP)] ∧
    (handle_handshake cexA2 "B" cexReplyP).2.events
      = [Event.handshakeSuccess "B"] ∧
    getSession cexA3.sessions "B" ≠ none ∧
    getSession cexB1.sessions "A" ≠ none ∧
    getSession cexA3.sessions "B" ≠ getSession cexB1.sessions "A" := by
  decide

/-- C1, amended: if A runs initiate_handshake toward B and the stored
ephemeral is not overwritten before the reply of B is processed (no
intervening initiation), then after B processes the init of A in
_handle_handshake_init and A processes the reply of B in
_handle_handshake, the key A stores in sessions for B and the key B
stores in sessions for A are byte-equal. The first two conjuncts pin
the relayed payloads to the ones the code produces. -/
theorem c1_key_agreement (stA stB : ClientState) (ea eb : Nat) :
    (initiate_handshake stA stB.username ea).2.sent
      = [(stB.username, Payload.handshakeInit
            ⟨edPub stA.identity_priv, xPub ea, edSign stA.identity_priv (xPub ea)⟩)] ∧
    (handle_handshake_init stB stA.username
        ⟨edPub stA.identity_priv, xPub ea, edSign stA.identity_priv (xPub ea)⟩ eb).2.sent
      = [(stA.username, Payload.handshake
            ⟨edPub stB.identity_priv, xPub eb, edSign stB.identity_priv (xPub eb)⟩)] ∧
    ∃ k : SymKey,
      getSession (handle_handshake (initiate_handshake stA stB.username ea).1
          stB.username
          ⟨edPub stB.identity_priv, xPub eb, edSign stB.identity_priv (xPub eb)⟩).1.sessions
        stB.username = some k ∧
      getSession (handle_handshake_init stB stA.username
          ⟨edPub stA.identity_priv, xPub ea, edSign stA.identity_priv (xPub ea)⟩ eb).1.sessions
        stA.username = some k := by
  refine ⟨rfl, ?_, ?_⟩
  · simp [handle_handshake_init, edVerify_edSign]
  · refine ⟨derive_shared_key (xExchange ea (xPub eb))
      (pairInfoInitiator stA.username stB.username), ?_, ?_⟩
    · simp [initiate_handshake, handle_handshake, edVerify_edSign,
        getSession_setSession_self]
    · have hex : xExchange eb (xPub ea) = xExchange ea (xPub eb) :=
        xExchange_comm eb ea
      have hswap : pairInfoResponder stB.username stA.username
          = pairInfoInitiator stA.username stB.username :=
        (pairInfo_swap stA.username stB.username).symm
      simp [handle_handshake_init, edVerify_edSign, getSession_setSession_self,
        hex, hswap]

/-- C2: every received handshake_init or handshake payload whose Ed25519
signature does not verify over the transmitted ephemeral under the
transmitted identity key is dropped by the handler with no mutation of
the session table or of my_eph_priv, no relayed reply, and no sink
event: no session transitions to established from such a payload. -/
theorem c2_invalid_sig_no_mutation (st : ClientState) (sender : String)
    (p : HSPayload) (eph : Nat)
    (h : edVerify p.identity p.ephemeral p.sig = false) :
    handle_handshake_init st sender p eph = (st, noOut) ∧
    handle_handshake st sender p = (st, noOut) := by
  constructor
  · simp [handle_handshake_init, h]
  · simp [handle_handshake, h]

/-- C2 witness: a payload whose ephemeral bytes were replaced (public
key of scalar 3 instead of the signed scalar 2) while the signature was
left unchanged fails verification, and both handlers drop it without
any state change. -/
theorem c2_invalid_sig_no_mutation_witness :
    edVerify (edPub 1) (xPub 3) (edSign 1 (xPub 2)) = false ∧
    handle_handshake_init ⟨"A", 1, [], none⟩ "B"
        ⟨edPub 1, xPub 3, edSign 1 (xPub 2)⟩ 5
      = (⟨"A", 1, [], none⟩, noOut) ∧
    handle_handshake ⟨"A", 1, [], none⟩ "B"
        ⟨edPub 1, xPub 3, edSign 1 (xPub 2)⟩
      = (⟨"A", 1, [], none⟩, noOut) :=
  ⟨by decide,
   (c2_invalid_sig_no_mutation ⟨"A", 1, [], none⟩ "B"
      ⟨edPub 1, xPub 3, edSign 1 (xPub 2)⟩ 5 (by decide)).1,
   (c2_invalid_sig_no_mutation ⟨"A", 1, [], none⟩ "B"
      ⟨edPub 1, xPub 3, edSign 1 (xPub 2)⟩ 5 (by decide)).2⟩

/-- C3, counterexample: the exactly-one invariant fails on the code. A
initiates toward B (storing ephemeral 2 in my_eph_priv), then processes
a valid handshake_init from B, completing as responder: the session key
for B is installed, handshake_success is emitted, and the ephemeral
created for the handshake toward B is still populated (my_eph_priv is
some 2, not absent). -/
theorem c3_counterexample :
    (handle_handshake_init cexC3a "B" cexC3initP 4).2.events
      = [Event.handshakeSuccess "B"] ∧
    getSession cexC3b.sessions "B" ≠ none ∧
    cexC3b.my_eph_priv = some 2 := by
  decide

/-- C3, amended: completion through the initiator path does clear the
ephemeral: _handle_handshake either leaves the state entirely unchanged
or leaves my_eph_priv equal to None; the responder path
(_handle_handshake_init) never touches my_eph_priv, so an ephemeral
stored by a pending initiation survives responder-side completion. -/
theorem c3_ephemeral_discipline (st : ClientState) (sender : String)
    (p : HSPayload) :
    ((handle_handshake st sender p).1 = st ∨
      (handle_handshake st sender p).1.my_eph_priv = none) ∧
    ∀ eph : Nat,
      (handle_handshake_init st sender p eph).1.my_eph_priv
        = st.my_eph_priv := by
  constructor
  · by_cases h : edVerify p.identity p.ephemeral p.sig = true
    · cases hm : st.my_eph_priv with
      | none => left; simp [handle_handshake, h, hm]
      | some e => right; simp [handle_handshake, h, hm]
    · left; simp [handle_handshake, h]
  · intro eph
    by_cases h : edVerify p.identity p.ephemeral p.sig = true <;>
      simp [handle_handshake_init, h]

/-- C4, counterexample: the claim fails on the code. A initiates toward
C only (so A never called initiate_handshake toward B), then receives a
signature-valid handshake reply from B: _handle_handshake does not drop
it — the stored client-wide ephemeral is present, so a session key is
installed for B and handshake_success is emitted. -/
theorem c4_counterexample :
    (handle_handshake cexC4a "B" cexC4replyP).2.events
      = [Event.handshakeSuccess "B"] ∧
    getSession cexC4b.sessions "B" ≠ none := by
  decide

/-- C4, amended: the unsolicited-reply guard is keyed on the single
client-wide my_eph_priv, not on per-sender state: a handshake reply is
logged and dropped with no state change exactly when no initiation at
all is pending (my_eph_priv is None); otherwise a signature-valid reply
from any sender installs a session key for that sender. -/
theorem c4_drop_without_pending_ephemeral (st : ClientState)
    (sender : String) (p : HSPayload) (h : st.my_eph_priv = none) :
    handle_handshake st sender p = (st, noOut) := by
  by_cases hv : edVerify p.identity p.ephemeral p.sig = true <;>
    simp [handle_handshake, hv, h]

/-- C4 witness: with no pending initiation, even a signature-valid
handshake reply is dropped with no state change. -/
theorem c4_drop_without_pending_ephemeral_witness :
    (⟨"A", 1, [], none⟩ : ClientState).my_eph_priv = none ∧
    handle_handshake ⟨"A", 1, [], none⟩ "B" cexC4replyP
      = (⟨"A", 1, [], none⟩, noOut) :=
  ⟨rfl, c4_drop_without_pending_ephemeral ⟨"A", 1, [], none⟩ "B"
    cexC4replyP rfl⟩

/-- C5: for every pair of usernames, the HKDF info string computed by
the code equals "session:" followed by the two names sorted and joined
with "|" (the spec-side formula), the responder path and the initiator
path compute identical info strings, and the info string is invariant
under exchanging the two roles. -/
theorem c5_info_string (a b : String) :
    pairInfoResponder a b = specSessionInfo a b ∧
    pairInfoInitiator a b = pairInfoResponder a b ∧
    pairInfoResponder a b = pairInfoResponder b a := by
  refine ⟨?_, rfl, ?_⟩
  · unfold pairInfoResponder specSessionInfo pySorted2
    by_cases h : strLe a b = true <;>
      simp [List.insertionSort, List.orderedInsert, h]
  · unfold pairInfoResponder
    rw [pySorted2_symm]

/-- C6: for every plaintext and every established session in which both
sides hold the same symmetric key, send_message produces exactly one
ciphertext payload, and delivering that payload unmodified to
_handle_ciphertext of the receiver emits the message event carrying the
sender name and the original plaintext to the sink. -/
theorem c6_roundtrip (stA stB : ClientState) (peer sender m : String)
    (n : Nat) (k : SymKey)
    (hA : getSession stA.sessions peer = some k)
    (hB : getSession stB.sessions sender = some k) :
    (send_message stA peer m n).2.sent
      = [(peer, Payload.ciphertext n (aeadEncrypt k n (strEncode m)))] ∧
    handle_ciphertext stB sender n (aeadEncrypt k n (strEncode m))
      = (stB, ⟨[], [Event.message sender m]⟩) := by
  constructor
  · simp [send_message, hA]
  · simp [handle_ciphertext, hB, aeadDecrypt, aeadEncrypt, strEncode,
      pbDecode]

/-- C6 witness: with the shared key (4, "x") installed on both sides, A
sends "hello" under nonce 12 and the sink of B receives the message
event from A with text "hello". -/
theorem c6_roundtrip_witness :
    getSession [("B", (⟨4, "x"⟩ : SymKey))] "B" = some ⟨4, "x"⟩ ∧
    getSession [("A", (⟨4, "x"⟩ : SymKey))] "A" = some ⟨4, "x"⟩ ∧
    (send_message ⟨"A", 1, [("B", ⟨4, "x"⟩)], none⟩ "B" "hello" 12).2.sent
      = [("B", Payload.ciphertext 12 (aeadEncrypt ⟨4, "x"⟩ 12 (strEncode "hello")))] ∧
    handle_ciphertext ⟨"B", 9, [("A", ⟨4, "x"⟩)], none⟩ "A" 12
        (aeadEncrypt ⟨4, "x"⟩ 12 (strEncode "hello"))
      = (⟨"B", 9, [("A", ⟨4, "x"⟩)], none⟩, ⟨[], [Event.message "A" "hello"]⟩) :=
  ⟨by decide, by decide,
   (c6_roundtrip ⟨"A", 1, [("B", ⟨4, "x"⟩)], none⟩
      ⟨"B", 9, [("A", ⟨4, "x"⟩)], none⟩ "B" "A" "hello" 12 ⟨4, "x"⟩
      (by decide) (by decide)).1,
   (c6_roundtrip ⟨"A", 1, [("B", ⟨4, "x"⟩)], none⟩
      ⟨"B", 9, [("A", ⟨4, "x"⟩)], none⟩ "B" "A" "hello" 12 ⟨4, "x"⟩
      (by decide) (by decide)).2⟩

/-- C7: for every established session and every ciphertext payload on
which AEAD authentication fails (the delivered ciphertext is not an
encryption under the session key and the delivered nonce, which is what
any bit flip of ct or nonce produces in the ideal AEAD model),
_handle_ciphertext drops the payload with no sink event, no relayed
reply, and no state change. -/
theorem c7_auth_failure_silent_drop (st : ClientState) (sender : String)
    (n : Nat) (c : Ct) (k : SymKey)
    (hk : getSession st.sessions sender = some k)
    (hc : ∀ p : PBytes, c ≠ aeadEncrypt k n p) :
    handle_ciphertext st sender n c = (st, noOut) := by
  have hkn : ¬ (c.key = k ∧ c.nonce = n) := by
    intro hkn
    apply hc c.pt
    obtain ⟨h1, h2⟩ := hkn
    cases c
    simp_all [aeadEncrypt]
  have hd : aeadDecrypt k n c = none := by
    simp [aeadDecrypt, hkn]
  simp [handle_ciphertext, hk, hd]

/-- C7 witness: a ciphertext honestly produced under nonce 5 is
delivered with its nonce flipped to 6; authentication fails and the
handler drops it silently with no state change. -/
theorem c7_auth_failure_silent_drop_witness :
    handle_ciphertext ⟨"B", 9, [("A", ⟨4, "x"⟩)], none⟩ "A" 6
        (aeadEncrypt ⟨4, "x"⟩ 5 (strEncode "hi"))
      = (⟨"B", 9, [("A", ⟨4, "x"⟩)], none⟩, noOut) :=
  c7_auth_failure_silent_drop ⟨"B", 9, [("A", ⟨4, "x"⟩)], none⟩ "A" 6
    (aeadEncrypt ⟨4, "x"⟩ 5 (strEncode "hi")) ⟨4, "x"⟩ (by decide)
    (by intro p h; simp [aeadEncrypt, strEncode] at h)

/-- C8: sending to a peer with no entry in the session table takes the
guarded early-return branch, surfaced here as the noSession result: it
relays nothing, appends nothing to the message log, and leaves the
client state (in particular the session table) unchanged. -/
theorem c8_send_no_session (st : ClientState) (peer m : String) (n : Nat)
    (h : getSession st.sessions peer = none) :
    send_message st peer m n = (st, ⟨SendResult.noSession, [], []⟩) := by
  simp [send_message, h]

/-- C8 witness: sending to B with an empty session table returns the
noSession outcome with nothing sent and nothing logged. -/
theorem c8_send_no_session_witness :
    getSession ([] : List (String × SymKey)) "B" = none ∧
    send_message ⟨"A", 1, [], none⟩ "B" "hi" 3
      = (⟨"A", 1, [], none⟩, ⟨SendResult.noSession, [], []⟩) :=
  ⟨rfl, c8_send_no_session ⟨"A", 1, [], none⟩ "B" "hi" 3 rfl⟩

/-- C9: with no file present, load_or_create_identity returns the
freshly generated Ed25519 key and writes its private half as
unencrypted PKCS#8 PEM; a subsequent call on the written file returns a
key whose public key equals the public key of the first one. -/
theorem c9_identity_persistence (fresh next : Nat) :
    load_or_create_identity none fresh
      = Except.ok (fresh, some (PemFile.ed25519Pkcs8 fresh)) ∧
    ∃ k : Nat,
      load_or_create_identity (some (PemFile.ed25519Pkcs8 fresh)) next
        = Except.ok (k, some (PemFile.ed25519Pkcs8 fresh)) ∧
      edPub k = edPub fresh :=
  ⟨rfl, fresh, rfl, rfl⟩

/-- C10: a ciphertext that authenticates under the session key but whose
plaintext is not valid UTF-8 is dropped silently: no sink event, no
relayed reply, no state change — the same outcome (st, noOut) as an
AEAD authentication failure, hence indistinguishable from it. -/
theorem c10_invalid_utf8_silent_drop (st : ClientState) (sender : String)
    (n : Nat) (k : SymKey) (blob : Nat)
    (hk : getSession st.sessions sender = some k) :
    handle_ciphertext st sender n (aeadEncrypt k n (PBytes.invalid blob))
      = (st, noOut) := by
  simp [handle_ciphertext, hk, aeadDecrypt, aeadEncrypt, pbDecode]

/-- C10 witness: an authenticated ciphertext carrying a non-UTF-8 blob
is dropped with no state change. -/
theorem c10_invalid_utf8_silent_drop_witness :
    handle_ciphertext ⟨"B", 9, [("A", ⟨4, "x"⟩)], none⟩ "A" 7
        (aeadEncrypt ⟨4, "x"⟩ 7 (PBytes.invalid 0))
      = (⟨"B", 9, [("A", ⟨4, "x"⟩)], none⟩, noOut) :=
  c10_invalid_utf8_silent_drop ⟨"B", 9, [("A", ⟨4, "x"⟩)], none⟩ "A" 7
    ⟨4, "x"⟩ 0 (by decide)

end ChatApp
